import Mathlib

/-!
Verification of the LLM call gateway (`utils/call_llm.py`) and the run
configuration loader (`main.py`) of the tutorial-generation pipeline.

The Python source is shallowly embedded: the gateway `call_llm` becomes a
pure function over an explicit `World` state (the cache file on disk and the
append-only log), the LLM backend becomes a function parameter
`String → Except String String` (an exception raised by the OpenAI client is
an `Except.error` that propagates), and the possible failure of the final
`json.dump` is a boolean parameter `writeFails`.  The outcome records, besides
the result and the new world, the list of prompts sent to the backend and the
number of cache-file reads and write attempts, so that "exactly one backend
call" and "never reads/writes the cache file" are stateable.
-/

namespace PocketFlow

/-- Contents of the cache file on disk: either a valid serialized map
(`json.load` succeeds and yields these key/value pairs) or invalid data
(`json.load` raises).  The dictionary is modelled as an association list
with unique keys. -/
inductive FileContent where
  | valid : List (String × String) → FileContent
  | invalid : FileContent
  deriving DecidableEq, Repr

/-- One record appended to the llm_calls log by the gateway. -/
inductive LogEntry where
  | prompt : String → LogEntry
  | tokenEstimate : Nat → LogEntry
  | response : String → LogEntry
  | loadError : LogEntry
  | saveError : LogEntry
  deriving DecidableEq, Repr

/-- The state the gateway interacts with: the cache file (`none` when the
file does not exist, mirroring the `os.path.exists` check) and the log. -/
structure World where
  cacheFile : Option FileContent
  log : List LogEntry
  deriving DecidableEq, Repr

/-- Append one record to the log (`logger.info` / `logger.error`). -/
def logI (w : World) (e : LogEntry) : World :=
  { w with log := w.log ++ [e] }

/-- `estimate_tokens` from `utils/call_llm.py`: `len(text) // 4`. -/
def estimate_tokens (text : String) : Nat :=
  text.length / 4

/-- Loading the cache from disk, as done inside `call_llm`:
if the file does not exist the cache is the empty map (no error);
if it exists but `json.load` raises, the cache is the empty map and the
error is logged (second component `true`); otherwise the stored map. -/
def loadCache (file : Option FileContent) : List (String × String) × Bool :=
  match file with
  | none => ([], false)
  | some (FileContent.valid m) => (m, false)
  | some FileContent.invalid => ([], true)

/-- Python dictionary update `cache[prompt] = response_text` on the
association-list model: the new binding shadows and removes any old one. -/
def dictInsert (m : List (String × String)) (k v : String) :
    List (String × String) :=
  (k, v) :: m.filter (fun p => !(p.1 == k))

deriving instance DecidableEq for Except

/-- Result of one gateway invocation: the returned text or the propagated
backend exception, the world after the call, the prompts sent to the backend
(one entry per request issued), and the number of cache-file reads and
cache-file write attempts performed. -/
structure CallOutcome where
  result : Except String String
  world : World
  backendPrompts : List String
  cacheReads : Nat
  cacheWrites : Nat
  deriving DecidableEq, Repr

/-- `call_llm(prompt, use_cache)` from `utils/call_llm.py`.

Control flow of the source, in order: log the prompt; log the token
estimate; if `use_cache`, load the cache (logging a load failure) and
return the stored response on a hit; otherwise issue exactly one backend
request (a backend failure propagates, aborting before any further
effect); on success log the response; if `use_cache`, reload the cache,
insert the new entry and save the whole map, logging (but swallowing) a
save failure; return the response. -/
def call_llm (backend : String → Except String String) (writeFails : Bool)
    (prompt : String) (use_cache : Bool) (w : World) : CallOutcome :=
  let w1 := logI (logI w (LogEntry.prompt prompt))
    (LogEntry.tokenEstimate (estimate_tokens prompt))
  let checked : Option String × World :=
    if use_cache then
      let p := loadCache w1.cacheFile
      let w2 := if p.2 then logI w1 LogEntry.loadError else w1
      (List.lookup prompt p.1, w2)
    else (none, w1)
  match checked.1 with
  | some r =>
      { result := Except.ok r,
        world := logI checked.2 (LogEntry.response r),
        backendPrompts := [],
        cacheReads := 1,
        cacheWrites := 0 }
  | none =>
    match backend prompt with
    | Except.error e =>
        { result := Except.error e,
          world := checked.2,
          backendPrompts := [prompt],
          cacheReads := if use_cache then 1 else 0,
          cacheWrites := 0 }
    | Except.ok response_text =>
      let w3 := logI checked.2 (LogEntry.response response_text)
      if use_cache then
        let q := loadCache w3.cacheFile
        let w4 := if q.2 then logI w3 LogEntry.loadError else w3
        let newCache := dictInsert q.1 prompt response_text
        if writeFails then
          { result := Except.ok response_text,
            world := logI w4 LogEntry.saveError,
            backendPrompts := [prompt],
            cacheReads := 2,
            cacheWrites := 1 }
        else
          { result := Except.ok response_text,
            world := { w4 with cacheFile := some (FileContent.valid newCache) },
            backendPrompts := [prompt],
            cacheReads := 2,
            cacheWrites := 1 }
      else
        { result := Except.ok response_text,
          world := w3,
          backendPrompts := [prompt],
          cacheReads := 0,
          cacheWrites := 0 }

/-!
Embedding of `main.py`: the default glob-pattern sets, the `SharedDict`
shared state container, and the construction of the initial container from
the command line and the `GITHUB_TOKEN` environment variable.  Python `set`
literals become lists (membership is what matters; the source literals
contain a few repeated elements, which a set literal collapses, so the
lists below carry each element once, in source order).
-/

/-- `DEFAULT_INCLUDE_PATTERNS` from `main.py`. -/
def DEFAULT_INCLUDE_PATTERNS : List String :=
  ["*.py", "*.js", "*.jsx", "*.ts", "*.tsx", "*.go", "*.java", "*.pyi",
   "*.pyx", "*.c", "*.cc", "*.cpp", "*.h", "*.md", "*.rst", "Dockerfile",
   "Makefile", "*.yaml", "*.yml"]

/-- `TEXT_ONLY_INCLUDE_PATTERNS` from `main.py`. -/
def TEXT_ONLY_INCLUDE_PATTERNS : List String :=
  ["*.md", "*.txt", "*.rst", "*.markdown", "README*", "documentation/*",
   "docs/*", "*.html", "*.mdx"]

/-- `DEFAULT_EXCLUDE_PATTERNS` from `main.py` (duplicated set-literal
elements written once). -/
def DEFAULT_EXCLUDE_PATTERNS : List String :=
  ["assets/*", "data/*", "examples/*", "images/*", "public/*", "static/*",
   "temp/*", "docs/*", "venv/*", ".venv/*", "*test*", "tests/*", "v1/*",
   "dist/*", "build/*", "experimental/*", "deprecated/*", "misc/*",
   "legacy/*", ".git/*", ".github/*", ".next/*", ".vscode/*", "obj/*",
   "bin/*", "node_modules/*", "*.log"]

/-- `TEXT_ONLY_EXCLUDE_PATTERNS` from `main.py`. -/
def TEXT_ONLY_EXCLUDE_PATTERNS : List String :=
  ["venv/*", ".venv/*", "node_modules/*", ".git/*", ".github/*", ".next/*",
   ".vscode/*", "dist/*", "build/*", "obj/*", "bin/*", "*.log"]

/-- Stand-in for Python `Any`: the elements of the late-bound pipeline lists
(`files`, `abstractions`, ...) are irrelevant to the claims, only the lists
themselves (initially empty) matter. -/
inductive PyAny where
  | obj : PyAny
  deriving DecidableEq, Repr

/-- The `SharedDict` typed dictionary from `main.py`: the Shared State
Container handed to the Pipeline. -/
structure SharedDict where
  repo_url : Option String
  local_dir : Option String
  project_name : Option String
  github_token : Option String
  output_dir : String
  include_patterns : List String
  exclude_patterns : List String
  max_file_size : Int
  language : String
  use_cache : Bool
  max_abstraction_num : Int
  text_only : Bool
  max_tokens : Int
  files : List PyAny
  abstractions : List PyAny
  relationships : List (PyAny × PyAny)
  chapter_order : List PyAny
  chapters : List PyAny
  final_output_dir : Option String
  deriving DecidableEq, Repr

/-- The raw command line: for each option, `none`/`false` means the option
was omitted.  Mirrors the `argparse` declarations in `main.py` (`--no-cache`
and `--text-only` are `store_true` flags, hence plain booleans). -/
structure Cli where
  repo : Option String
  dir : Option String
  name : Option String
  token : Option String
  output : Option String
  include_args : Option (List String)
  exclude_args : Option (List String)
  max_size : Option Int
  language : Option String
  no_cache : Bool
  max_abstractions : Option Int
  text_only : Bool
  max_tokens_arg : Option Int
  deriving DecidableEq, Repr

/-- The parsed `args` namespace, with `argparse` defaults applied. -/
structure Args where
  repo : Option String
  dir : Option String
  name : Option String
  token : Option String
  output : String
  include_args : Option (List String)
  exclude_args : Option (List String)
  max_size : Int
  language : String
  no_cache : Bool
  max_abstractions : Int
  text_only : Bool
  max_tokens_arg : Int
  deriving DecidableEq, Repr

/-- `parser.parse_args()` for the parser declared in `main.py`.  The source
puts `--repo` and `--dir` in `add_mutually_exclusive_group(required=True)`;
per the documented argparse semantics this rejects a command line that
supplies both options or neither, before any further code runs.  The
remaining options carry the declared defaults (`output`, `100000`,
`"english"`, `10`, `30000`; `store_true` flags default to false and
`--include`/`--exclude` have no default). -/
def parse_args (c : Cli) : Except String Args :=
  if c.repo.isSome && c.dir.isSome then
    Except.error "argument --dir: not allowed with argument --repo"
  else if c.repo.isNone && c.dir.isNone then
    Except.error "one of the arguments --repo --dir is required"
  else
    Except.ok
      { repo := c.repo, dir := c.dir, name := c.name, token := c.token,
        output := c.output.getD "output",
        include_args := c.include_args, exclude_args := c.exclude_args,
        max_size := c.max_size.getD 100000,
        language := c.language.getD "english",
        no_cache := c.no_cache,
        max_abstractions := c.max_abstractions.getD 10,
        text_only := c.text_only,
        max_tokens_arg := c.max_tokens_arg.getD 30000 }

/-- Python `a or b` on two optional strings: `a` unless it is `None` or the
(falsy) empty string, else `b`. -/
def pyOr (a b : Option String) : Option String :=
  match a with
  | some s => if s == "" then b else some s
  | none => b

/-- Python truthiness of an optional string (`if args.repo:`). -/
def truthyStr (a : Option String) : Bool :=
  match a with
  | some s => !(s == "")
  | none => false

/-- The body of `main()` after argument parsing: computes `github_token`
(argument, falling back to the `GITHUB_TOKEN` environment variable, only
when `--repo` was given a truthy value), selects the include/exclude
pattern sets (user-supplied if non-empty, else the text-only or code
defaults according to `--text-only`), and builds the initial `shared`
dictionary. -/
def buildShared (args : Args) (env_github_token : Option String) : SharedDict :=
  let github_token : Option String :=
    if truthyStr args.repo then pyOr args.token env_github_token else none
  let include_patterns : List String :=
    match args.include_args with
    | some (p :: ps) => p :: ps
    | _ => if args.text_only then TEXT_ONLY_INCLUDE_PATTERNS
           else DEFAULT_INCLUDE_PATTERNS
  let exclude_patterns : List String :=
    match args.exclude_args with
    | some (p :: ps) => p :: ps
    | _ => if args.text_only then TEXT_ONLY_EXCLUDE_PATTERNS
           else DEFAULT_EXCLUDE_PATTERNS
  { repo_url := args.repo,
    local_dir := args.dir,
    project_name := args.name,
    github_token := github_token,
    output_dir := args.output,
    include_patterns := include_patterns,
    exclude_patterns := exclude_patterns,
    max_file_size := args.max_size,
    language := args.language,
    use_cache := !args.no_cache,
    max_abstraction_num := args.max_abstractions,
    text_only := args.text_only,
    max_tokens := args.max_tokens_arg,
    files := [],
    abstractions := [],
    relationships := [],
    chapter_order := [],
    chapters := [],
    final_output_dir := none }

/-- `main()` from `main.py`, up to handing the initial container to the
Pipeline: parse the command line (rejecting an invalid source
configuration) and build the initial `shared` container. -/
def main (c : Cli) (env_github_token : Option String) :
    Except String SharedDict :=
  (parse_args c).map (fun args => buildShared args env_github_token)

/-- Whether a parse/run result is a success. -/
def exceptOk (r : Except String SharedDict) : Bool :=
  match r with
  | Except.ok _ => true
  | Except.error _ => false

/-- A command line supplying only `--repo`; every other option omitted. -/
def cliRepoOnly : Cli :=
  { repo := some "https://example/repo", dir := none, name := none,
    token := none, output := none, include_args := none, exclude_args := none,
    max_size := none, language := none, no_cache := false,
    max_abstractions := none, text_only := false, max_tokens_arg := none }

/-- A command line supplying both `--repo` and `--dir`. -/
def cliBothSources : Cli :=
  { cliRepoOnly with dir := some "/repo" }

/-- A command line supplying neither `--repo` nor `--dir`. -/
def cliNoSource : Cli :=
  { cliRepoOnly with repo := none }

/-- The parsed arguments for `cliRepoOnly` (all defaults applied). -/
def argsRepoOnly : Args :=
  { repo := some "https://example/repo", dir := none, name := none,
    token := none, output := "output", include_args := none,
    exclude_args := none, max_size := 100000, language := "english",
    no_cache := false, max_abstractions := 10, text_only := false,
    max_tokens_arg := 30000 }

/-- The initial container built from `cliRepoOnly` with no environment
token. -/
def sharedRepoOnly : SharedDict :=
  buildShared argsRepoOnly none

/-!  ## Helper lemmas  -/

@[simp] theorem logI_cacheFile (w : World) (e : LogEntry) :
    (logI w e).cacheFile = w.cacheFile := rfl

@[simp] theorem logI_log (w : World) (e : LogEntry) :
    (logI w e).log = w.log ++ [e] := rfl

@[simp] theorem cacheFile_ite (c : Prop) [Decidable c] (w : World)
    (e : LogEntry) : (if c then logI w e else w).cacheFile = w.cacheFile := by
  split <;> rfl

@[simp] theorem lookup_dictInsert (m : List (String × String)) (k v : String) :
    List.lookup k (dictInsert m k v) = some v := by
  simp [dictInsert, List.lookup]

/-- A cache-enabled call whose prompt is a key of the loaded cache map is
answered from the cache: no backend request, the stored response, the cache
file untouched. -/
theorem call_llm_hit (backend : String → Except String String) (wf : Bool)
    (prompt r : String) (w : World)
    (h : List.lookup prompt (loadCache w.cacheFile).1 = some r) :
    (call_llm backend wf prompt true w).result = Except.ok r ∧
    (call_llm backend wf prompt true w).backendPrompts = [] ∧
    (call_llm backend wf prompt true w).world.cacheFile = w.cacheFile := by
  simp [call_llm, h]

/-- A cache-enabled call on a missing prompt with a successful backend and
a successful save: one backend request, the backend's response, and the
inserted entry persisted to the cache file. -/
theorem call_llm_miss_ok (backend : String → Except String String)
    (prompt r : String) (w : World)
    (hm : List.lookup prompt (loadCache w.cacheFile).1 = none)
    (hb : backend prompt = Except.ok r) :
    (call_llm backend false prompt true w).result = Except.ok r ∧
    (call_llm backend false prompt true w).backendPrompts = [prompt] ∧
    (call_llm backend false prompt true w).world.cacheFile =
      some (FileContent.valid
        (dictInsert (loadCache w.cacheFile).1 prompt r)) := by
  simp [call_llm, hm, hb]

/-!  ## Claim theorems  -/

/-- Claim C1: for every prompt, invoking the gateway twice with the same
prompt and caching enabled (starting from a state whose cache has no entry
for the prompt, with the backend answering and the save succeeding, the
implicit operating conditions of the claim) performs exactly one backend
call in total — the first invocation issues the one request, the second
issues none — and both invocations return the identical response text: the
second is served from the cache entry stored by the first (so not even the
second invocation's backend or save outcome matters). -/
theorem cache_correctness (backend backend2 : String → Except String String)
    (wf2 : Bool) (prompt r : String) (w : World)
    (hm : List.lookup prompt (loadCache w.cacheFile).1 = none)
    (hb : backend prompt = Except.ok r) :
    (call_llm backend false prompt true w).result = Except.ok r ∧
    (call_llm backend false prompt true w).backendPrompts = [prompt] ∧
    (call_llm backend2 wf2 prompt true
      (call_llm backend false prompt true w).world).result = Except.ok r ∧
    (call_llm backend2 wf2 prompt true
      (call_llm backend false prompt true w).world).backendPrompts = [] := by
  obtain ⟨h1, h2, h3⟩ := call_llm_miss_ok backend prompt r w hm hb
  have hhit : List.lookup prompt
      (loadCache (call_llm backend false prompt true w).world.cacheFile).1 =
      some r := by
    rw [h3]; simp [loadCache]
  obtain ⟨g1, g2, _⟩ := call_llm_hit backend2 wf2 prompt r _ hhit
  exact ⟨h1, h2, g1, g2⟩

/-- Claim C1 witness: at the concrete prompt "P", empty initial state and a
backend answering "R1", both invocations return "R1" and only the first
contacts the backend. -/
theorem cache_correctness_witness :
    (call_llm (fun _ => Except.ok "R1") false "P" true
      { cacheFile := none, log := [] }).result = Except.ok "R1" ∧
    (call_llm (fun _ => Except.ok "R1") false "P" true
      { cacheFile := none, log := [] }).backendPrompts = ["P"] ∧
    (call_llm (fun _ => Except.error "down") true "P" true
      (call_llm (fun _ => Except.ok "R1") false "P" true
        { cacheFile := none, log := [] }).world).result = Except.ok "R1" ∧
    (call_llm (fun _ => Except.error "down") true "P" true
      (call_llm (fun _ => Except.ok "R1") false "P" true
        { cacheFile := none, log := [] }).world).backendPrompts = [] :=
  cache_correctness (fun _ => Except.ok "R1") (fun _ => Except.error "down")
    true "P" "R1" { cacheFile := none, log := [] } rfl rfl

/-- Claim C2: with `use_cache = false` the gateway always issues exactly one
backend request (whatever the cache file holds), never reads and never
writes the cache file, leaves its contents unchanged, and returns exactly
what the backend returned (response or propagated failure). -/
theorem cache_bypass (backend : String → Except String String) (wf : Bool)
    (prompt : String) (w : World) :
    (call_llm backend wf prompt false w).world.cacheFile = w.cacheFile ∧
    (call_llm backend wf prompt false w).cacheReads = 0 ∧
    (call_llm backend wf prompt false w).cacheWrites = 0 ∧
    (call_llm backend wf prompt false w).backendPrompts = [prompt] ∧
    (call_llm backend wf prompt false w).result = backend prompt := by
  cases hb : backend prompt <;> simp [call_llm, hb]

/-- Claim C9: the gateway's token estimate is the floor of the character
length divided by four, hence zero on any text shorter than four characters
and monotone non-decreasing in text length. -/
theorem estimate_tokens_spec (t : String) :
    estimate_tokens t = t.length / 4 ∧
    (t.length < 4 → estimate_tokens t = 0) ∧
    ∀ s : String, s.length ≤ t.length →
      estimate_tokens s ≤ estimate_tokens t :=
  ⟨rfl, fun h => Nat.div_eq_of_lt h,
   fun _ hs => Nat.div_le_div_right hs⟩

/-- Claim C9 witness: the three-character text "abc" has estimate zero, and
the estimate of "abc" is at most that of the longer "abcdefgh". -/
theorem estimate_tokens_spec_witness :
    estimate_tokens "abc" = 0 ∧
    estimate_tokens "abc" ≤ estimate_tokens "abcdefgh" :=
  ⟨(estimate_tokens_spec "abc").2.1 (by decide),
   (estimate_tokens_spec "abcdefgh").2.2 "abc" (by decide)⟩

/-- Claim C3 counterexample: with the cache file missing (deleted), a
cache-enabled call does succeed with the backend's response, but no load
error is logged — the source guards the load with an existence check, so a
merely missing file raises nothing and logs nothing, contradicting the
claim's "the error is logged" for the missing-file case. -/
theorem cache_resilience_counterexample :
    (call_llm (fun _ => Except.ok "R") false "P" true
      { cacheFile := none, log := [] }).result = Except.ok "R" ∧
    LogEntry.loadError ∉
      (call_llm (fun _ => Except.ok "R") false "P" true
        { cacheFile := none, log := [] }).world.log := by
  constructor
  · rfl
  · decide

/-- Claim C3 (amended): if the cache file is missing or its contents fail
to deserialize, a cache-enabled invocation does not raise the load problem
to the caller: the load yields an empty mapping, a load error is logged in
the deserialization-failure case (a merely missing file is silently treated
as empty), and the call proceeds as a live backend call that still returns
the backend's response. -/
theorem cache_resilience (backend : String → Except String String)
    (wf : Bool) (prompt r : String) (w : World)
    (hfile : w.cacheFile = none ∨ w.cacheFile = some FileContent.invalid)
    (hb : backend prompt = Except.ok r) :
    (loadCache w.cacheFile).1 = [] ∧
    (call_llm backend wf prompt true w).result = Except.ok r ∧
    (call_llm backend wf prompt true w).backendPrompts = [prompt] ∧
    (w.cacheFile = some FileContent.invalid →
      LogEntry.loadError ∈ (call_llm backend wf prompt true w).world.log) := by
  rcases hfile with h | h <;>
    cases wf <;>
    simp [call_llm, h, hb, loadCache, logI]

/-- Claim C3 witness: with a corrupt cache file and a backend answering
"R", the call returns "R", performs the one live backend request, and a
load error appears in the log. -/
theorem cache_resilience_witness :
    (loadCache (some FileContent.invalid)).1 = [] ∧
    (call_llm (fun _ => Except.ok "R") false "P" true
      { cacheFile := some FileContent.invalid, log := [] }).result =
      Except.ok "R" ∧
    (call_llm (fun _ => Except.ok "R") false "P" true
      { cacheFile := some FileContent.invalid, log := [] }).backendPrompts =
      ["P"] ∧
    LogEntry.loadError ∈
      (call_llm (fun _ => Except.ok "R") false "P" true
        { cacheFile := some FileContent.invalid, log := [] }).world.log :=
  have h := cache_resilience (fun _ => Except.ok "R") false "P" "R"
    { cacheFile := some FileContent.invalid, log := [] } (Or.inr rfl) rfl
  ⟨h.1, h.2.1, h.2.2.1, h.2.2.2 rfl⟩

/-- Claim C4: on a cache miss with caching enabled and a successful backend
response, the gateway reads the cache file a second time (the post-response
reload), inserts the (prompt, response) entry into the reloaded map and
persists the full map; if persisting fails the failure is logged, the file
is left unchanged, and the call still returns the response rather than
raising. -/
theorem cache_store_on_miss (backend : String → Except String String)
    (wf : Bool) (prompt r : String) (w : World)
    (hm : List.lookup prompt (loadCache w.cacheFile).1 = none)
    (hb : backend prompt = Except.ok r) :
    (call_llm backend wf prompt true w).result = Except.ok r ∧
    (call_llm backend wf prompt true w).cacheReads = 2 ∧
    (call_llm backend wf prompt true w).cacheWrites = 1 ∧
    (wf = false →
      (call_llm backend wf prompt true w).world.cacheFile =
        some (FileContent.valid
          (dictInsert (loadCache w.cacheFile).1 prompt r))) ∧
    (wf = true →
      (call_llm backend wf prompt true w).world.cacheFile = w.cacheFile ∧
      LogEntry.saveError ∈ (call_llm backend wf prompt true w).world.log) := by
  cases wf <;> cases hq : (loadCache w.cacheFile).2 <;>
    simp [call_llm, hm, hb, hq, logI]

/-- Claim C4 witness: at prompt "P" over an empty initial state, with the
save failing, the call still returns "R", read the cache twice, attempted
one write, left the (missing) file missing, and logged the save error. -/
theorem cache_store_on_miss_witness :
    (call_llm (fun _ => Except.ok "R") true "P" true
      { cacheFile := none, log := [] }).result = Except.ok "R" ∧
    (call_llm (fun _ => Except.ok "R") true "P" true
      { cacheFile := none, log := [] }).cacheReads = 2 ∧
    (call_llm (fun _ => Except.ok "R") true "P" true
      { cacheFile := none, log := [] }).cacheWrites = 1 ∧
    (call_llm (fun _ => Except.ok "R") true "P" true
      { cacheFile := none, log := [] }).world.cacheFile = none ∧
    LogEntry.saveError ∈
      (call_llm (fun _ => Except.ok "R") true "P" true
        { cacheFile := none, log := [] }).world.log :=
  have h := cache_store_on_miss (fun _ => Except.ok "R") true "P" "R"
    { cacheFile := none, log := [] } rfl rfl
  ⟨h.1, h.2.1, h.2.2.1, (h.2.2.2.2 rfl).1, (h.2.2.2.2 rfl).2⟩

/-- Claim C5: on a cache miss, or with caching disabled, the gateway issues
exactly one request to the backend with the prompt as sole input (no
retry); if that call fails, the same failure propagates to the gateway's
caller and the cache file is left unchanged. -/
theorem backend_no_retry_propagation (backend : String → Except String String)
    (wf : Bool) (prompt : String) (use_cache : Bool) (w : World)
    (hmiss : use_cache = false ∨
      List.lookup prompt (loadCache w.cacheFile).1 = none) :
    (call_llm backend wf prompt use_cache w).backendPrompts = [prompt] ∧
    ∀ e, backend prompt = Except.error e →
      (call_llm backend wf prompt use_cache w).result = Except.error e ∧
      (call_llm backend wf prompt use_cache w).world.cacheFile =
        w.cacheFile := by
  rcases hmiss with h | h
  · subst h
    cases hb : backend prompt <;> simp [call_llm, hb]
  · cases use_cache
    · cases hb : backend prompt <;> simp [call_llm, hb]
    · cases hb : backend prompt <;> cases wf <;>
        cases hq : (loadCache w.cacheFile).2 <;>
        simp [call_llm, h, hb, hq, logI]

/-- Claim C5 witness: at prompt "P" with caching disabled and a backend
that fails with "timeout", the gateway issues the single request ["P"],
returns the very failure "timeout", and leaves the cache file unchanged. -/
theorem backend_no_retry_propagation_witness :
    (call_llm (fun _ => Except.error "timeout") false "P" false
      { cacheFile := none, log := [] }).backendPrompts = ["P"] ∧
    (call_llm (fun _ => Except.error "timeout") false "P" false
      { cacheFile := none, log := [] }).result = Except.error "timeout" ∧
    (call_llm (fun _ => Except.error "timeout") false "P" false
      { cacheFile := none, log := [] }).world.cacheFile = none :=
  have h := backend_no_retry_propagation (fun _ => Except.error "timeout")
    false "P" false { cacheFile := none, log := [] } (Or.inl rfl)
  ⟨h.1, (h.2 "timeout" rfl).1, (h.2 "timeout" rfl).2⟩


/-- Claim C6: a run configuration supplying both the remote source locator
and the local path, or neither, is rejected by the configuration loader
before any Stage executes (no container is produced); and every initial
container the loader does hand to the Pipeline has exactly one of
repo_url / local_dir set — never both, never neither. -/
theorem mutual_exclusivity (c : Cli) (env : Option String) (s : SharedDict) :
    (((c.repo.isSome ∧ c.dir.isSome) ∨ (c.repo = none ∧ c.dir = none)) →
      exceptOk (main c env) = false) ∧
    (main c env = Except.ok s →
      ((s.repo_url.isSome ∧ s.local_dir = none) ∨
       (s.repo_url = none ∧ s.local_dir.isSome))) := by
  cases hr : c.repo <;> cases hd : c.dir
  · refine ⟨fun _ => ?_, fun h => ?_⟩
    · simp [main, parse_args, hr, hd, exceptOk, Except.map]
    · simp [main, parse_args, hr, hd, Except.map] at h
  · refine ⟨fun hcon => ?_, fun h => ?_⟩
    · rcases hcon with ⟨h1, _⟩ | ⟨_, h2⟩
      · simp [hr] at h1
      · simp [hd] at h2
    · simp [main, parse_args, hr, hd, Except.map] at h
      subst h
      simp [buildShared]
  · refine ⟨fun hcon => ?_, fun h => ?_⟩
    · rcases hcon with ⟨_, h2⟩ | ⟨h1, _⟩
      · simp [hd] at h2
      · simp [hr] at h1
    · simp [main, parse_args, hr, hd, Except.map] at h
      subst h
      simp [buildShared]
  · refine ⟨fun _ => ?_, fun h => ?_⟩
    · simp [main, parse_args, hr, hd, exceptOk, Except.map]
    · simp [main, parse_args, hr, hd, Except.map] at h

/-- Claim C6 witness: supplying both sources is rejected, supplying neither
is rejected, and the container built from a repo-only command line has the
remote source set and the local path absent. -/
theorem mutual_exclusivity_witness :
    exceptOk (main cliBothSources none) = false ∧
    exceptOk (main cliNoSource none) = false ∧
    ((sharedRepoOnly.repo_url.isSome ∧ sharedRepoOnly.local_dir = none) ∨
     (sharedRepoOnly.repo_url = none ∧ sharedRepoOnly.local_dir.isSome)) :=
  ⟨(mutual_exclusivity cliBothSources none sharedRepoOnly).1
      (Or.inl (by decide)),
   (mutual_exclusivity cliNoSource none sharedRepoOnly).1
      (Or.inr (by decide)),
   (mutual_exclusivity cliRepoOnly none sharedRepoOnly).2 rfl⟩

/-- Claim C7: when the text-only flag is true and no explicit
include/exclude patterns are supplied, the initial container's
include-pattern set equals the text-only default set — which contains
`*.md` and `*.txt` — rather than the code default set — which contains
`*.py` and `*.go`, neither of which is selected — and its exclude-pattern
set equals the text-only default exclude set. -/
theorem text_only_defaults (repo dir name token : Option String)
    (output : String) (msize : Int) (lang : String) (ncache : Bool)
    (mabs mtok : Int) (env : Option String) :
    (buildShared ⟨repo, dir, name, token, output, none, none, msize, lang,
      ncache, mabs, true, mtok⟩ env).include_patterns =
      TEXT_ONLY_INCLUDE_PATTERNS ∧
    "*.md" ∈ TEXT_ONLY_INCLUDE_PATTERNS ∧
    "*.txt" ∈ TEXT_ONLY_INCLUDE_PATTERNS ∧
    "*.py" ∈ DEFAULT_INCLUDE_PATTERNS ∧
    "*.go" ∈ DEFAULT_INCLUDE_PATTERNS ∧
    "*.py" ∉ TEXT_ONLY_INCLUDE_PATTERNS ∧
    TEXT_ONLY_INCLUDE_PATTERNS ≠ DEFAULT_INCLUDE_PATTERNS ∧
    (buildShared ⟨repo, dir, name, token, output, none, none, msize, lang,
      ncache, mabs, true, mtok⟩ env).exclude_patterns =
      TEXT_ONLY_EXCLUDE_PATTERNS := by
  refine ⟨by simp [buildShared], by decide, by decide, by decide, by decide,
    by decide, by decide, by simp [buildShared]⟩

/-- Claim C8: when the corresponding options are omitted, the initial
container carries output root "output", max file size 100000, language
"english", caching enabled, max-abstraction count 10, text-only off and a
30000-token budget, and its intermediate/final fields start at the empty
or absent sentinels. -/
theorem default_config (repo dir name token : Option String)
    (incl excl : Option (List String)) (env : Option String) (s : SharedDict)
    (h : main ⟨repo, dir, name, token, none, incl, excl, none, none, false,
      none, false, none⟩ env = Except.ok s) :
    s.output_dir = "output" ∧ s.max_file_size = 100000 ∧
    s.language = "english" ∧ s.use_cache = true ∧
    s.max_abstraction_num = 10 ∧ s.text_only = false ∧
    s.max_tokens = 30000 ∧ s.files = [] ∧ s.abstractions = [] ∧
    s.relationships = [] ∧ s.chapter_order = [] ∧ s.chapters = [] ∧
    s.final_output_dir = none := by
  cases repo <;> cases dir
  · simp [main, parse_args, Except.map] at h
  · simp [main, parse_args, Except.map] at h
    subst h
    simp [buildShared]
  · simp [main, parse_args, Except.map] at h
    subst h
    simp [buildShared]
  · simp [main, parse_args, Except.map] at h

/-- Claim C8 witness: the container built from the repo-only command line
with every other option omitted carries the documented defaults and empty
sentinels. -/
theorem default_config_witness :
    sharedRepoOnly.output_dir = "output" ∧
    sharedRepoOnly.max_file_size = 100000 ∧
    sharedRepoOnly.language = "english" ∧ sharedRepoOnly.use_cache = true ∧
    sharedRepoOnly.max_abstraction_num = 10 ∧
    sharedRepoOnly.text_only = false ∧ sharedRepoOnly.max_tokens = 30000 ∧
    sharedRepoOnly.files = [] ∧ sharedRepoOnly.abstractions = [] ∧
    sharedRepoOnly.relationships = [] ∧ sharedRepoOnly.chapter_order = [] ∧
    sharedRepoOnly.chapters = [] ∧ sharedRepoOnly.final_output_dir = none :=
  default_config (some "https://example/repo") none none none none none
    none sharedRepoOnly rfl

/-- Claim C10: when the local-directory source is used (repo absent), the
container's github_token is always absent, whatever token argument or
GITHUB_TOKEN environment value is supplied; when a (non-empty) remote
source is used, the token is the argument with the environment as
fallback — the environment is consulted only in that case. -/
theorem github_token_local_none (d : String) (name token : Option String)
    (output : String) (incl excl : Option (List String)) (msize : Int)
    (lang : String) (ncache : Bool) (mabs : Int) (tonly : Bool) (mtok : Int)
    (env : Option String) :
    (buildShared ⟨none, some d, name, token, output, incl, excl, msize, lang,
      ncache, mabs, tonly, mtok⟩ env).github_token = none ∧
    ∀ u : String, u ≠ "" →
      (buildShared ⟨some u, some d, name, token, output, incl, excl, msize,
        lang, ncache, mabs, tonly, mtok⟩ env).github_token =
        pyOr token env := by
  constructor
  · simp [buildShared, truthyStr]
  · intro u hu
    simp [buildShared, truthyStr, hu]

/-- Claim C10 witness: with token argument "TOK" and environment token
"ENV", the local-directory container has no github_token, while the
remote-source container resolves the token through the argument/environment
fallback. -/
theorem github_token_local_none_witness :
    (buildShared ⟨none, some "/repo", none, some "TOK", "output", none, none,
      100000, "english", false, 10, false, 30000⟩
      (some "ENV")).github_token = none ∧
    (buildShared ⟨some "https://example/repo", some "/repo", none,
      some "TOK", "output", none, none, 100000, "english", false, 10, false,
      30000⟩ (some "ENV")).github_token =
      pyOr (some "TOK") (some "ENV") :=
  have h := github_token_local_none "/repo" none (some "TOK") "output" none
    none 100000 "english" false 10 false 30000 (some "ENV")
  ⟨h.1, h.2 "https://example/repo" (by decide)⟩

end PocketFlow
